import Mathlib

/-!
Shallow embedding of the `coaching-tree` repository (two Python source
files: `add_coaching_node.py` and `db/db.py`) together with proofs about
the properties its specification states.

Modelling conventions:
* Python dynamic JSON values are the inductive `Json`; `json.loads` is an
  abstract parameter `loads : String → Option Json` (`none` models a
  `JSONDecodeError`); `json.dumps` is modelled by the concrete serializer
  `json_dumps`.
* The boto3 DynamoDB client is modelled by `Client`, whose field
  `put_item_response` gives the external store's acknowledgement for a
  `put_item` call; the calls the handler issues to the store are collected
  in a trace of `StoreOp`s returned alongside the result.
* `uuid.uuid4()` is modelled by a generator state `UuidGen`: `gen n` is
  the n-th random draw and `counter` counts draws made so far.
* Python exceptions (`JSONDecodeError`, `KeyError`, type faults) are the
  error type `PyError`; a raising computation returns `Except.error`.
-/

/-- A JSON value, the result of Python's `json.loads`. -/
inductive Json where
  | null : Json
  | bool : Bool → Json
  | num : Int → Json
  | str : String → Json
  | arr : List Json → Json
  | obj : List (String × Json) → Json

/-- Python exceptions that the handler can raise:
`json_decode_error` for a malformed body, `key_error k` for a missing
dictionary key `k`, `type_error` for a dynamically ill-typed value
(a non-object body or a non-string/non-string-list field). -/
inductive PyError where
  | json_decode_error : PyError
  | key_error : String → PyError
  | type_error : PyError
deriving DecidableEq

/-- A DynamoDB attribute value: `S` a string, `SS` a string set,
exactly the two shapes `put_person` builds. -/
inductive AttrValue where
  | S : String → AttrValue
  | SS : List String → AttrValue
deriving DecidableEq

/-- A DynamoDB item, the dict passed as `Item=` to `put_item`. -/
abbrev Item := List (String × AttrValue)

/-- An operation issued to the external DynamoDB service.  The code under
verification only ever issues `put_item`; the other constructors model the
rest of the client API surface so that "no other store operation occurs"
is a non-vacuous statement. -/
inductive StoreOp where
  | put_item : String → Item → StoreOp
  | get_item : String → Item → StoreOp
  | delete_item : String → Item → StoreOp
deriving DecidableEq

/-- The boto3 DynamoDB client (`boto3.client('dynamodb')`): its behaviour
is the external store's response to a `put_item` on a table with an item. -/
structure Client where
  put_item_response : String → Item → Json

/-- The state of the `uuid.uuid4()` random source: `gen n` is the n-th
draw, `counter` the number of draws made so far. -/
structure UuidGen where
  gen : Nat → String
  counter : Nat

/-- One call to `str(uuid.uuid4())`: returns the next draw and advances
the generator. -/
def uuid4 (g : UuidGen) : String × UuidGen :=
  (g.gen g.counter, { g with counter := g.counter + 1 })

/-- The `DynamoDB` class of `db/db.py`: `client` is `Option` because the
source's `_init_dynamodb_if_needed` guards against it being unset. -/
structure DynamoDB where
  client : Option Client
  table_name : String

/-- `DynamoDB.__init__`: stores a fresh boto3 client (the ambient
`boto3_client` value) and the table name. -/
def DynamoDB.init (boto3_client : Client) (table_name : String) : DynamoDB :=
  { client := some boto3_client, table_name := table_name }

/-- `DynamoDB._init_dynamodb_if_needed`: `if not self.client:` re-creates
the client (a `None` field is falsy; a client object is truthy). -/
def DynamoDB.init_dynamodb_if_needed (boto3_client : Client) (db : DynamoDB) : DynamoDB :=
  if db.client.isNone then { db with client := some boto3_client } else db

/-- The item constructed inside `put_person` from the already-drawn uuid:
always `id` and `name`; `children`/`parents` only when the list is truthy
(non-empty), mirroring `if children:` / `if parents:`. -/
def build_item (uuid : String) (name : String) (children parents : List String) : Item :=
  let item : Item := [("id", AttrValue.S uuid), ("name", AttrValue.S name)]
  let item := if children.isEmpty then item else item ++ [("children", AttrValue.SS children)]
  let item := if parents.isEmpty then item else item ++ [("parents", AttrValue.SS parents)]
  item

/-- Result of a `put_person` call: the object's state after the call, the
advanced uuid source, the trace of store operations issued, and the store's
response (the method's return value). -/
structure PutPersonResult where
  db : DynamoDB
  g : UuidGen
  ops : List StoreOp
  response : Json

/-- `DynamoDB.put_person(self, name, children=[], parents=[])`:
calls `_init_dynamodb_if_needed`, draws `str(uuid.uuid4())`, builds the
item, and issues a single `put_item`, returning the store's response.
After `_init_dynamodb_if_needed` the `client` field is always set, so
`db.client.getD boto3_client` is exactly the client the source would use. -/
def DynamoDB.put_person (boto3_client : Client) (db : DynamoDB) (g : UuidGen)
    (name : String) (children : List String := []) (parents : List String := []) :
    PutPersonResult :=
  let db := DynamoDB.init_dynamodb_if_needed boto3_client db
  let (u, g) := uuid4 g
  let item := build_item u name children parents
  let client := db.client.getD boto3_client
  let response := client.put_item_response db.table_name item
  { db := db, g := g, ops := [StoreOp.put_item db.table_name item], response := response }

/-- The default-argument objects of `put_person` made explicit: Python
creates the two default lists `[]` once at function definition time and
shares them across calls; this state threads them through a call. -/
structure PutPersonDefaults where
  children_default : List String
  parents_default : List String

/-- `put_person` with Python's default-argument semantics explicit:
`none` for an argument means the caller omitted it, so the shared default
object is used.  The body of the source performs no mutating operation on
`children`/`parents` (it only truth-tests them and embeds them in the
item), so the defaults state is returned unchanged. -/
def put_person_tracked (boto3_client : Client) (db : DynamoDB)
    (defaults : PutPersonDefaults) (g : UuidGen) (name : String)
    (children_arg parents_arg : Option (List String)) :
    PutPersonResult × PutPersonDefaults :=
  let children := children_arg.getD defaults.children_default
  let parents := parents_arg.getD defaults.parents_default
  let db := DynamoDB.init_dynamodb_if_needed boto3_client db
  let (u, g) := uuid4 g
  let item := build_item u name children parents
  let client := db.client.getD boto3_client
  let response := client.put_item_response db.table_name item
  ({ db := db, g := g, ops := [StoreOp.put_item db.table_name item], response := response },
   defaults)

/-- String escaping of Python's `json.dumps` (model: quote and backslash). -/
def escape_json_string (s : String) : String :=
  s.foldl
    (fun acc c =>
      acc ++ (if c = '"' then "\\\"" else if c = '\\' then "\\\\" else String.singleton c))
    ""

mutual

/-- Model of Python's `json.dumps` with its default separators. -/
def json_dumps : Json → String
  | Json.null => "null"
  | Json.bool true => "true"
  | Json.bool false => "false"
  | Json.num n => toString n
  | Json.str s => "\"" ++ escape_json_string s ++ "\""
  | Json.arr xs => "[" ++ String.intercalate ", " (json_dumps_list xs) ++ "]"
  | Json.obj kvs => "\x7b" ++ String.intercalate ", " (json_dumps_obj kvs) ++ "\x7d"

/-- Serialize the elements of a JSON array. -/
def json_dumps_list : List Json → List String
  | [] => []
  | x :: xs => json_dumps x :: json_dumps_list xs

/-- Serialize the key/value pairs of a JSON object. -/
def json_dumps_obj : List (String × Json) → List String
  | [] => []
  | (k, v) :: xs =>
      ("\"" ++ escape_json_string k ++ "\": " ++ json_dumps v) :: json_dumps_obj xs

end

/-- Python dictionary subscript `body[k]` on a parsed JSON value: raises
`KeyError` when the key is absent, a type fault when the value is not an
object. -/
def dict_get (body : Json) (k : String) : Except PyError Json :=
  match body with
  | Json.obj fields =>
      match fields.lookup k with
      | some v => Except.ok v
      | none => Except.error (PyError.key_error k)
  | _ => Except.error PyError.type_error

/-- A JSON value used where the code needs a string. -/
def Json.as_string : Json → Except PyError String
  | Json.str s => Except.ok s
  | _ => Except.error PyError.type_error

/-- Each element of a JSON array read as a string. -/
def as_string_all : List Json → Except PyError (List String)
  | [] => Except.ok []
  | Json.str s :: xs => (as_string_all xs).map (fun t => s :: t)
  | _ :: _ => Except.error PyError.type_error

/-- A JSON value used where the code needs a list of strings. -/
def Json.as_string_list : Json → Except PyError (List String)
  | Json.arr xs => as_string_all xs
  | _ => Except.error PyError.type_error

/-- The four subscripts the handler performs on the parsed body, in source
order: `request_body['type']`, then the keyword arguments `name`,
`children`, `parents`.  The first failing subscript raises. -/
def extract_request (request_body : Json) :
    Except PyError (String × String × List String × List String) :=
  match dict_get request_body "type" with
  | Except.error e => Except.error e
  | Except.ok tyv =>
      match tyv.as_string with
      | Except.error e => Except.error e
      | Except.ok ty =>
          match dict_get request_body "name" with
          | Except.error e => Except.error e
          | Except.ok namev =>
              match namev.as_string with
              | Except.error e => Except.error e
              | Except.ok name =>
                  match dict_get request_body "children" with
                  | Except.error e => Except.error e
                  | Except.ok childrenv =>
                      match childrenv.as_string_list with
                      | Except.error e => Except.error e
                      | Except.ok children =>
                          match dict_get request_body "parents" with
                          | Except.error e => Except.error e
                          | Except.ok parentsv =>
                              match parentsv.as_string_list with
                              | Except.error e => Except.error e
                              | Except.ok parents =>
                                  Except.ok (ty, name, children, parents)

/-- The inbound Lambda event; the handler only reads `event['body']`. -/
structure Event where
  body : String

/-- The opaque Lambda execution context (never inspected). -/
abbrev Context := Unit

/-- The handler's return dict `{'statusCode': 200, 'body': ...}`. -/
structure HandlerResponse where
  statusCode : Nat
  body : String
deriving DecidableEq

/-- The handler `add_coaching_node(event, context)` of
`add_coaching_node.py`.  Ambient environment passed explicitly: `loads`
(the `json.loads` parser), `boto3_client` (what `boto3.client('dynamodb')`
yields in this invocation), `g` (the `uuid4` random source).  Returns the
handler's outcome (response or uncaught exception) paired with the trace
of operations issued to the external store before that outcome. -/
def add_coaching_node (loads : String → Option Json) (boto3_client : Client)
    (g : UuidGen) (event : Event) (_context : Context) :
    Except PyError HandlerResponse × List StoreOp :=
  match loads event.body with
  | none => (Except.error PyError.json_decode_error, [])
  | some request_body =>
      match extract_request request_body with
      | Except.error e => (Except.error e, [])
      | Except.ok (ty, name, children, parents) =>
          let dynamo_db := DynamoDB.init boto3_client ty
          let r := DynamoDB.put_person boto3_client dynamo_db g name children parents
          (Except.ok { statusCode := 200, body := json_dumps r.response }, r.ops)

/-- C1: every `put_person` call issues a put whose item is the constructed
record; that record always contains the `id` and `name` attributes, and
contains `children` (resp. `parents`) exactly when the supplied list is
non-empty — empty or defaulted lists are omitted from the item entirely. -/
theorem put_person_item_fields (boto3_client : Client) (db : DynamoDB) (g : UuidGen)
    (name : String) (children parents : List String) :
    (DynamoDB.put_person boto3_client db g name children parents).ops =
      [StoreOp.put_item (DynamoDB.init_dynamodb_if_needed boto3_client db).table_name
        (build_item (g.gen g.counter) name children parents)] ∧
    ((build_item (g.gen g.counter) name children parents).lookup "id"
        = some (AttrValue.S (g.gen g.counter))) ∧
    ((build_item (g.gen g.counter) name children parents).lookup "name"
        = some (AttrValue.S name)) ∧
    (((build_item (g.gen g.counter) name children parents).lookup "children").isSome
        ↔ children ≠ []) ∧
    (((build_item (g.gen g.counter) name children parents).lookup "parents").isSome
        ↔ parents ≠ []) := by
  refine ⟨rfl, ?_, ?_, ?_, ?_⟩ <;>
    cases children <;> cases parents <;>
      simp [build_item, List.lookup]

/-- C9: after `DynamoDB.__init__` the `client` field is set; the guard in
`_init_dynamodb_if_needed` is therefore never taken (the call is the
identity), and `put_person` leaves the object exactly as constructed. -/
theorem client_always_set (c boto3_client : Client) (t : String) (g : UuidGen)
    (name : String) (children parents : List String) :
    (DynamoDB.init c t).client = some c ∧
    DynamoDB.init_dynamodb_if_needed boto3_client (DynamoDB.init c t) = DynamoDB.init c t ∧
    (DynamoDB.put_person boto3_client (DynamoDB.init c t) g name children parents).db
      = DynamoDB.init c t := by
  refine ⟨rfl, ?_, ?_⟩ <;>
    simp [DynamoDB.init, DynamoDB.init_dynamodb_if_needed, DynamoDB.put_person]

/-- C10: the defaults state of `put_person` is returned unchanged by every
call (the body never mutates its `children`/`parents` arguments or the
shared default list objects), and a call that omits both arguments builds,
for the same uuid draw, exactly the record an explicit-empty-list call
builds — which is also what the plain model `put_person` computes. -/
theorem put_person_defaults_pure (boto3_client : Client) (db : DynamoDB)
    (defaults : PutPersonDefaults) (g : UuidGen) (name : String)
    (children_arg parents_arg : Option (List String)) :
    (put_person_tracked boto3_client db defaults g name children_arg parents_arg).2
        = defaults ∧
    put_person_tracked boto3_client db ⟨[], []⟩ g name none none
      = put_person_tracked boto3_client db ⟨[], []⟩ g name (some []) (some []) ∧
    (put_person_tracked boto3_client db ⟨[], []⟩ g name none none).1
      = DynamoDB.put_person boto3_client db g name :=
  ⟨rfl, rfl, rfl⟩

/-- A concrete store client used by closed witnesses: acknowledges every
put with `null`. -/
def demo_client : Client := ⟨fun _ _ => Json.null⟩

/-- A concrete uuid source used by closed witnesses. -/
def demo_gen : UuidGen := ⟨fun _ => "u-0", 0⟩

/-- The parsed body of the specification's end-to-end example. -/
def demo_body : Json :=
  Json.obj [("type", Json.str "people"), ("name", Json.str "Ada"),
            ("children", Json.arr []), ("parents", Json.arr [Json.str "Grace"])]

/-- A parser fixture that yields `demo_body` for any raw body. -/
def demo_loads : String → Option Json := fun _ => some demo_body

/-- A concrete inbound event used by closed witnesses. -/
def demo_event : Event := ⟨"demo"⟩

/-- C3: when `json.loads` fails on the event body, the handler raises the
decode error and the trace of store operations is empty — no `put_item`
happens and the external store is untouched. -/
theorem malformed_json_no_write (loads : String → Option Json) (boto3_client : Client)
    (g : UuidGen) (event : Event) (context : Context)
    (h : loads event.body = none) :
    add_coaching_node loads boto3_client g event context
      = (Except.error PyError.json_decode_error, []) := by
  unfold add_coaching_node
  rw [h]

/-- Witness for C3 at a concrete always-failing parser. -/
theorem malformed_json_no_write_witness :
    (fun _ : String => (none : Option Json)) demo_event.body = none ∧
    add_coaching_node (fun _ => none) demo_client demo_gen demo_event ()
      = (Except.error PyError.json_decode_error, []) :=
  ⟨rfl, malformed_json_no_write (fun _ => none) demo_client demo_gen demo_event () rfl⟩

/-- C4: on a well-formed request the single store write targets exactly the
table named by the body's `type` field, which the gateway passes to
`put_item` unchanged. -/
theorem table_name_equals_type (loads : String → Option Json) (boto3_client : Client)
    (g : UuidGen) (event : Event) (context : Context)
    (rb : Json) (ty name : String) (children parents : List String)
    (h1 : loads event.body = some rb)
    (h2 : extract_request rb = Except.ok (ty, name, children, parents)) :
    (add_coaching_node loads boto3_client g event context).2
      = [StoreOp.put_item ty (build_item (g.gen g.counter) name children parents)] := by
  unfold add_coaching_node
  simp only [h1, h2]
  rfl

/-- Witness for C4 at the specification's end-to-end example. -/
theorem table_name_equals_type_witness :
    demo_loads demo_event.body = some demo_body ∧
    extract_request demo_body = Except.ok ("people", "Ada", [], ["Grace"]) ∧
    (add_coaching_node demo_loads demo_client demo_gen demo_event ()).2
      = [StoreOp.put_item "people" (build_item "u-0" "Ada" [] ["Grace"])] :=
  ⟨rfl, rfl,
    table_name_equals_type demo_loads demo_client demo_gen demo_event () demo_body
      "people" "Ada" [] ["Grace"] rfl rfl⟩

/-- C8: a successful invocation issues exactly one store operation, and it
is a `put_item` — no other operation of any kind appears in the trace. -/
theorem one_put_item_per_success (loads : String → Option Json) (boto3_client : Client)
    (g : UuidGen) (event : Event) (context : Context) (resp : HandlerResponse)
    (h : (add_coaching_node loads boto3_client g event context).1 = Except.ok resp) :
    ∃ t item, (add_coaching_node loads boto3_client g event context).2
      = [StoreOp.put_item t item] := by
  unfold add_coaching_node at h ⊢
  cases hl : loads event.body with
  | none => simp [hl] at h
  | some rb =>
      cases he : extract_request rb with
      | error e => simp [hl, he] at h
      | ok quad =>
          obtain ⟨ty, name, children, parents⟩ := quad
          simp only [he]
          exact ⟨ty, build_item (g.gen g.counter) name children parents, rfl⟩

/-- Witness for C8 at the specification's end-to-end example. -/
theorem one_put_item_per_success_witness :
    (add_coaching_node demo_loads demo_client demo_gen demo_event ()).1
        = Except.ok { statusCode := 200, body := "null" } ∧
    ∃ t item, (add_coaching_node demo_loads demo_client demo_gen demo_event ()).2
      = [StoreOp.put_item t item] :=
  ⟨rfl, one_put_item_per_success demo_loads demo_client demo_gen demo_event ()
      { statusCode := 200, body := "null" } rfl⟩

/-- C5: whenever the handler returns (rather than raising), the response
has status code exactly 200 and its body is the `json.dumps` serialization
of the store's response to the one `put_item` issued, unmodified; no other
status code can be produced by the handler itself. -/
theorem success_returns_200_and_store_body
    (loads : String → Option Json) (boto3_client : Client) (g : UuidGen)
    (event : Event) (context : Context) (resp : HandlerResponse)
    (h : (add_coaching_node loads boto3_client g event context).1 = Except.ok resp) :
    resp.statusCode = 200 ∧
    ∃ t item,
      (add_coaching_node loads boto3_client g event context).2
          = [StoreOp.put_item t item] ∧
        resp.body = json_dumps (boto3_client.put_item_response t item) := by
  unfold add_coaching_node at h ⊢
  cases hl : loads event.body with
  | none => simp [hl] at h
  | some rb =>
      cases he : extract_request rb with
      | error e => simp [hl, he] at h
      | ok quad =>
          obtain ⟨ty, name, children, parents⟩ := quad
          rw [hl] at h
          simp only [he] at h ⊢
          obtain rfl :
              ({ statusCode := 200,
                 body := json_dumps ((DynamoDB.put_person boto3_client
                   (DynamoDB.init boto3_client ty) g name children
                   parents).response) } : HandlerResponse) = resp := by
            exact Except.ok.inj h
          exact ⟨rfl, ty, build_item (g.gen g.counter) name children parents, rfl, rfl⟩

/-- Witness for C5 at the specification's end-to-end example. -/
theorem success_returns_200_and_store_body_witness :
    (add_coaching_node demo_loads demo_client demo_gen demo_event ()).1
        = Except.ok { statusCode := 200, body := "null" } ∧
    ({ statusCode := 200, body := "null" } : HandlerResponse).statusCode = 200 :=
  ⟨rfl,
    (success_returns_200_and_store_body demo_loads demo_client demo_gen demo_event ()
      { statusCode := 200, body := "null" } rfl).1⟩

/-- A parsed request body that has `type` and `name` but omits the
`children` and `parents` keys. -/
def no_children_body : Json :=
  Json.obj [("type", Json.str "people"), ("name", Json.str "Ada")]

/-- A parser fixture that yields `no_children_body` for any raw body. -/
def no_children_loads : String → Option Json := fun _ => some no_children_body

/-- C2 counterexample: on a well-formed JSON body that contains `type` and
`name` but omits `children`, the handler does not process the request
successfully — the subscript `request_body['children']` raises `KeyError`
and no store operation is issued. -/
theorem omitted_children_faults :
    add_coaching_node no_children_loads demo_client demo_gen demo_event ()
      = (Except.error (PyError.key_error "children"), []) := rfl

/-- Reading back a JSON array of string literals yields the strings. -/
theorem as_string_all_map_str (cs : List String) :
    as_string_all (cs.map Json.str) = Except.ok cs := by
  induction cs with
  | nil => rfl
  | cons c cs ih => simp [as_string_all, ih, Except.map]

/-- C2 (amended): if the parsed body contains all of `type`, `name`,
`children`, `parents` — the sequences possibly empty — the handler
processes the request successfully; but if the `children` key is omitted,
or `children` is present and the `parents` key is omitted, the handler
faults with the corresponding `KeyError` before any store write. -/
theorem present_keys_ok_omitted_faults
    (loads : String → Option Json) (boto3_client : Client) (g : UuidGen)
    (event : Event) (context : Context) (rb : Json) (ty name : String)
    (children parents : List String) (fields : List (String × Json))
    (h1 : loads event.body = some rb) :
    (extract_request rb = Except.ok (ty, name, children, parents) →
      (add_coaching_node loads boto3_client g event context).1
        = Except.ok (HandlerResponse.mk 200
            (json_dumps ((DynamoDB.put_person boto3_client
              (DynamoDB.init boto3_client ty) g name children parents).response)))) ∧
    (rb = Json.obj fields →
      fields.lookup "type" = some (Json.str ty) →
      fields.lookup "name" = some (Json.str name) →
      fields.lookup "children" = none →
      add_coaching_node loads boto3_client g event context
        = (Except.error (PyError.key_error "children"), [])) ∧
    (rb = Json.obj fields →
      fields.lookup "type" = some (Json.str ty) →
      fields.lookup "name" = some (Json.str name) →
      fields.lookup "children" = some (Json.arr (children.map Json.str)) →
      fields.lookup "parents" = none →
      add_coaching_node loads boto3_client g event context
        = (Except.error (PyError.key_error "parents"), [])) := by
  refine ⟨?_, ?_, ?_⟩
  · intro h2
    unfold add_coaching_node
    simp only [h1, h2]
  · intro hrb hty hname hch
    subst hrb
    have he : extract_request (Json.obj fields)
        = Except.error (PyError.key_error "children") := by
      unfold extract_request dict_get
      simp only [hty, hname, hch]
      rfl
    unfold add_coaching_node
    simp only [h1, he]
  · intro hrb hty hname hch hp
    subst hrb
    have he : extract_request (Json.obj fields)
        = Except.error (PyError.key_error "parents") := by
      unfold extract_request dict_get
      simp only [hty, hname, hch, hp, Json.as_string, Json.as_string_list,
        as_string_all_map_str]
    unfold add_coaching_node
    simp only [h1, he]

/-- Witness for the amended C2: with all four keys present (and `children`
empty), the handler succeeds with status 200. -/
theorem present_keys_ok_omitted_faults_witness :
    demo_loads demo_event.body = some demo_body ∧
    extract_request demo_body = Except.ok ("people", "Ada", [], ["Grace"]) ∧
    (add_coaching_node demo_loads demo_client demo_gen demo_event ()).1
      = Except.ok (HandlerResponse.mk 200 "null") :=
  ⟨rfl, rfl,
    (present_keys_ok_omitted_faults demo_loads demo_client demo_gen demo_event ()
      demo_body "people" "Ada" [] ["Grace"] [] rfl).1 rfl⟩

/-- C6: with non-empty `children` and `parents`, the record written by
`put_person` carries both string sets and the unchanged `name`, and its
`id` is exactly the uuid drawn in this call — a value the caller never
supplies — which, the draw being fresh, differs from every input value. -/
theorem nonempty_sets_and_fresh_id (boto3_client : Client) (db : DynamoDB) (g : UuidGen)
    (name : String) (children parents : List String)
    (hc : children ≠ []) (hp : parents ≠ [])
    (hfc : g.gen g.counter ∉ children) (hfp : g.gen g.counter ∉ parents)
    (hfn : g.gen g.counter ≠ name) :
    (DynamoDB.put_person boto3_client db g name children parents).ops =
      [StoreOp.put_item (DynamoDB.init_dynamodb_if_needed boto3_client db).table_name
        (build_item (g.gen g.counter) name children parents)] ∧
    (build_item (g.gen g.counter) name children parents).lookup "children"
        = some (AttrValue.SS children) ∧
    (build_item (g.gen g.counter) name children parents).lookup "parents"
        = some (AttrValue.SS parents) ∧
    (build_item (g.gen g.counter) name children parents).lookup "name"
        = some (AttrValue.S name) ∧
    (build_item (g.gen g.counter) name children parents).lookup "id"
        = some (AttrValue.S (g.gen g.counter)) ∧
    g.gen g.counter ∉ children ∧ g.gen g.counter ∉ parents ∧
    g.gen g.counter ≠ name := by
  obtain ⟨c0, cs, rfl⟩ := List.exists_cons_of_ne_nil hc
  obtain ⟨p0, ps, rfl⟩ := List.exists_cons_of_ne_nil hp
  exact ⟨rfl, by simp [build_item, List.lookup], by simp [build_item, List.lookup],
    by simp [build_item, List.lookup], by simp [build_item, List.lookup],
    hfc, hfp, hfn⟩

/-- Witness for C6 at a concrete non-empty input. -/
theorem nonempty_sets_and_fresh_id_witness :
    (["Bob"] : List String) ≠ [] ∧ (["Grace"] : List String) ≠ [] ∧
    demo_gen.gen demo_gen.counter ∉ (["Bob"] : List String) ∧
    demo_gen.gen demo_gen.counter ∉ (["Grace"] : List String) ∧
    demo_gen.gen demo_gen.counter ≠ "Ada" ∧
    (build_item (demo_gen.gen demo_gen.counter) "Ada" ["Bob"] ["Grace"]).lookup "id"
      = some (AttrValue.S (demo_gen.gen demo_gen.counter)) :=
  ⟨by decide, by decide, by decide, by decide, by decide,
    (nonempty_sets_and_fresh_id demo_client (DynamoDB.init demo_client "people")
      demo_gen "Ada" ["Bob"] ["Grace"] (by decide) (by decide) (by decide)
      (by decide) (by decide)).2.2.2.2.1⟩

/-- A uuid source whose first two draws differ, for the C7 witness. -/
def two_gen : UuidGen := ⟨fun n => if n = 0 then "u-0" else "u-1", 0⟩

/-- C7: two successive `put_person` calls with identical `name`,
`children`, `parents` store as ids the two successive uuid draws — nothing
is cached or reused — so when the draws differ (as fresh version-4 UUIDs
do), the two records carry distinct ids. -/
theorem two_calls_distinct_ids (boto3_client : Client) (db : DynamoDB) (g : UuidGen)
    (name : String) (children parents : List String)
    (h : g.gen g.counter ≠ g.gen (g.counter + 1)) :
    ((DynamoDB.put_person boto3_client db g name children parents).ops
        = [StoreOp.put_item db.table_name
            (build_item (g.gen g.counter) name children parents)]) ∧
    ((DynamoDB.put_person boto3_client
          (DynamoDB.put_person boto3_client db g name children parents).db
          (DynamoDB.put_person boto3_client db g name children parents).g
          name children parents).ops
        = [StoreOp.put_item db.table_name
            (build_item (g.gen (g.counter + 1)) name children parents)]) ∧
    (build_item (g.gen g.counter) name children parents).lookup "id"
      ≠ (build_item (g.gen (g.counter + 1)) name children parents).lookup "id" := by
  have hid : ∀ u : String,
      (build_item u name children parents).lookup "id" = some (AttrValue.S u) := by
    intro u
    cases children <;> cases parents <;> simp [build_item, List.lookup]
  refine ⟨?_, ?_, ?_⟩
  · cases hdb : db.client <;>
      simp [DynamoDB.put_person, DynamoDB.init_dynamodb_if_needed, uuid4, hdb]
  · cases hdb : db.client <;>
      simp [DynamoDB.put_person, DynamoDB.init_dynamodb_if_needed, uuid4, hdb]
  · rw [hid, hid]
    simp [h]

/-- Witness for C7 at a concrete uuid source with distinct draws. -/
theorem two_calls_distinct_ids_witness :
    two_gen.gen two_gen.counter ≠ two_gen.gen (two_gen.counter + 1) ∧
    (build_item (two_gen.gen two_gen.counter) "Ada" [] []).lookup "id"
      ≠ (build_item (two_gen.gen (two_gen.counter + 1)) "Ada" [] []).lookup "id" :=
  ⟨by decide,
    (two_calls_distinct_ids demo_client (DynamoDB.init demo_client "people") two_gen
      "Ada" [] [] (by decide)).2.2⟩
